import Mathlib

/-!
Shallow embedding of the message-classification engine of rlguardbot
(`src/analyzer.py` with the configuration constants of `src/config.py`).

Text is modelled as `List Char` (Python strings are sequences of code
points).  Timestamps are rationals measured in seconds, so Python's
`now - t < timedelta(minutes=1)` becomes `now - t < 60`.  Float
confidence literals become the exact rationals 0.95 = 19/20, 0.9 = 9/10,
0.8 = 4/5, 0.7 = 7/10, 0.6 = 3/5, 0.5 = 1/2, 0.3 = 3/10; every
comparison the code performs on them is strict and well separated, so
the rational model decides each branch exactly as the float code does.
The per-instance dict `user_message_times` becomes an explicit state
value of type `Int → List ℚ` (absent key and key ↦ [] coincide, which
matches the `if user_id not in ...: ... = []` initialisation), threaded
through `analyze` and `analyze_report`.
-/

namespace RelayGuard

/-- Python `str.lower` restricted to the alphabets the bot actually
handles: ASCII letters plus the Cyrillic letters used by the Russian
keyword lists (А..Я lower to а..я, Ё lowers to ё). -/
def pyLower (c : Char) : Char :=
  if c.isUpper then c.toLower
  else if 'А' ≤ c ∧ c ≤ 'Я' then Char.ofNat (c.toNat + 32)
  else if c = 'Ё' then 'ё'
  else c

/-- Lower-casing of a whole text, Python `text.lower()`. -/
def pyLowerStr (s : List Char) : List Char := s.map pyLower

/-- Python `c.isupper()` for ASCII and the Cyrillic block. -/
def pyIsUpper (c : Char) : Bool :=
  c.isUpper || ('А' ≤ c && c ≤ 'Я') || c = 'Ё'

/-- Python regex `\s` (the core whitespace set). -/
def pyIsSpace (c : Char) : Bool :=
  c = ' ' || c = '\t' || c = '\n' || c = '\r' || c = '\x0B' || c = '\x0C'

/-- Python regex `\w`: alphanumerics and underscore, extended with the
Cyrillic letters occurring in the bot's Russian patterns. -/
def isWordChar (c : Char) : Bool :=
  c.isAlphanum || c = '_' || ('а' ≤ c && c ≤ 'я') || ('А' ≤ c && c ≤ 'Я')
    || c = 'ё' || c = 'Ё'

/-- Boolean list-prefix test (needle against haystack). -/
def isPrefixB : List Char → List Char → Bool
  | [], _ => true
  | _ :: _, [] => false
  | a :: as, b :: bs => a == b && isPrefixB as bs

/-- Python substring containment `needle in haystack`. -/
def containsSub (needle : List Char) : List Char → Bool
  | [] => isPrefixB needle []
  | b :: bs => isPrefixB needle (b :: bs) || containsSub needle bs

theorem isPrefixB_map (f : Char → Char) :
    ∀ n h : List Char, isPrefixB n h = true → isPrefixB (n.map f) (h.map f) = true := by
  intro n
  induction n with
  | nil => intro h _; simp [isPrefixB]
  | cons a as ih =>
    intro h hp
    cases h with
    | nil => simp [isPrefixB] at hp
    | cons b bs =>
      simp only [isPrefixB, Bool.and_eq_true, beq_iff_eq] at hp
      simp only [List.map, isPrefixB, Bool.and_eq_true, beq_iff_eq]
      exact ⟨by rw [hp.1], ih bs hp.2⟩

theorem containsSub_map (f : Char → Char) :
    ∀ n h : List Char, containsSub n h = true → containsSub (n.map f) (h.map f) = true := by
  intro n h
  induction h with
  | nil =>
    intro hp
    cases n with
    | nil => simp [containsSub, isPrefixB]
    | cons a as => simp [containsSub, isPrefixB] at hp
  | cons b bs ih =>
    intro hp
    simp only [containsSub, Bool.or_eq_true] at hp ⊢
    rcases hp with hp | hp
    · exact Or.inl (isPrefixB_map f n (b :: bs) hp)
    · exact Or.inr (ih hp)

/-!
Regular expressions.  `analyzer.py` uses a small fragment of Python `re`
syntax: literal characters, alternation, the classes `.` `\s` `\w`,
bounded repetition `.{0,n}` (expressed below as an `n`-fold optional
single character, which matches exactly the same strings), unbounded
repetition of a single character class (`\s*`, `e+`, `a*`, stretched
letters), the zero-width word-boundary assertion `\b`, and one negative
lookahead `(?!.*relay)` whose body is of the fixed shape `.*literal`.
The matcher below enumerates all possible continuations of a match
(pairs of the character last consumed — needed by `\b` — and the
remaining input), so greedy/backtracking behaviour of `re` is subsumed:
`re.search` succeeds iff some continuation exists at some start
position.
-/

inductive Rx where
  | eps : Rx
  | cls (p : Char → Bool) : Rx
  | seq (a b : Rx) : Rx
  | alt (a b : Rx) : Rx
  | starCls (p : Char → Bool) : Rx
  | wordB : Rx
  | negAheadContains (needle : List Char) : Rx

/-- True at a Python `\b` position: exactly one side is a word char. -/
def isWordBoundary (prev : Option Char) (s : List Char) : Bool :=
  let a := match prev with | none => false | some c => isWordChar c
  let b := match s with | [] => false | c :: _ => isWordChar c
  a != b

/-- Continuations of matching `p*`: stop before each maximal-or-earlier
position of the run of characters satisfying `p`. -/
def starMatches (p : Char → Bool) : Option Char → List Char → List (Option Char × List Char)
  | prev, [] => [(prev, [])]
  | prev, c :: rest =>
    (prev, c :: rest) :: (if p c then starMatches p (some c) rest else [])

/-- Python's `.` never crosses a newline, so `.*needle` succeeds exactly
when `needle` occurs (case-insensitively, the one use is under
`re.IGNORECASE`) inside the current line of the remaining input. -/
def firstLine (s : List Char) : List Char := s.takeWhile (fun c => c != '\n')

/-- All continuations of matching a regex against the head of `s`,
where `prev` is the character immediately before `s` (for `\b`). -/
def rxMatch : Rx → Option Char → List Char → List (Option Char × List Char)
  | .eps, prev, s => [(prev, s)]
  | .cls _, _, [] => []
  | .cls p, _, c :: rest => if p c then [(some c, rest)] else []
  | .seq a b, prev, s =>
    ((rxMatch a prev s).map (fun pr => rxMatch b pr.1 pr.2)).flatten
  | .alt a b, prev, s => rxMatch a prev s ++ rxMatch b prev s
  | .starCls p, prev, s => starMatches p prev s
  | .wordB, prev, s => if isWordBoundary prev s then [(prev, s)] else []
  | .negAheadContains needle, prev, s =>
    if containsSub needle (pyLowerStr (firstLine s)) then [] else [(prev, s)]

/-- Scan of `re.search`: try a match at every position of `s`
(including the end), tracking the previous character for `\b`. -/
def rxSearchAux (r : Rx) : Option Char → List Char → Bool
  | prev, [] => !(rxMatch r prev []).isEmpty
  | prev, c :: rest =>
    !(rxMatch r prev (c :: rest)).isEmpty || rxSearchAux r (some c) rest

/-- Python `re.search(pattern, s) is not None`. -/
def rxSearch (r : Rx) (s : List Char) : Bool := rxSearchAux r none s

/-- Regex that never matches (used as the unit of alternation folds). -/
def rxFail : Rx := Rx.cls (fun _ => false)

/-- Sequence of a list of regexes. -/
def rxSeqs (l : List Rx) : Rx := l.foldr Rx.seq Rx.eps

/-- Alternation of a list of regexes. -/
def rxAlts (l : List Rx) : Rx := l.foldr Rx.alt rxFail

/-- Case-sensitive literal string. -/
def rlit (s : String) : Rx := rxSeqs (s.toList.map (fun c => Rx.cls (fun d => d == c)))

/-- Case-insensitive literal string (for patterns run with `re.IGNORECASE`
on raw text). -/
def rlitCI (s : String) : Rx :=
  rxSeqs (s.toList.map (fun c => Rx.cls (fun d => pyLower d == pyLower c)))

/-- Python `.` (any character except newline). -/
def rdot : Rx := Rx.cls (fun c => c != '\n')

/-- Optional regex, `r?`. -/
def ropt (r : Rx) : Rx := Rx.alt r Rx.eps

/-- Bounded repetition `r{0,n}`, written as `n` chained options, which
matches the same strings. -/
def rrepUpTo (r : Rx) : Nat → Rx
  | 0 => Rx.eps
  | n + 1 => Rx.seq (ropt r) (rrepUpTo r n)

/-- Python `\s*`. -/
def rws : Rx := Rx.starCls pyIsSpace

/-- One-or-more repetition of a character class, `p+`. -/
def rplusCls (p : Char → Bool) : Rx := Rx.seq (Rx.cls p) (Rx.starCls p)

/-- Alternation of literal words, `(w1|w2|...)`. -/
def rwords (ws : List String) : Rx := rxAlts (ws.map rlit)

/-!  Data model: the `AnalysisResult` dataclass and the configuration
constants of `config.py` consumed by the analyzer. -/

structure AnalysisResult where
  is_violation : Bool
  violation_type : Option String
  confidence : ℚ
  reason : String
  should_delete : Bool
  should_warn : Bool
  should_mute : Bool
  should_ban : Bool
  deriving DecidableEq, Repr

/-- Spam pattern: source text of the Python regex (used in the verdict's
reason string) together with its embedding. -/
structure SpamPat where
  src : String
  rx : Rx

structure Config where
  SUSPICIOUS_KEYWORDS : List (List Char)
  SPAM_PATTERNS : List SpamPat
  MAX_LINKS_PER_MESSAGE : Nat
  MAX_MESSAGES_PER_MINUTE : Nat

/-- The `SUSPICIOUS_KEYWORDS` list of `config.py`. -/
def SUSPICIOUS_KEYWORDS_default : List (List Char) :=
  ["crypto", "invest", "earn money", "click here", "free bitcoin",
   "заработок", "инвестиции", "крипта", "бесплатно"].map String.toList

/-- The `SPAM_PATTERNS` list of `config.py`:
`t\.me/(?!.*relay)`, `bit\.ly`, `tinyurl`, `@\w+bot\b`
(all searched on the raw text with `re.IGNORECASE`). -/
def SPAM_PATTERNS_default : List SpamPat :=
  [ ⟨"t\\.me/(?!.*relay)", rxSeqs [rlitCI "t.me/", Rx.negAheadContains ("relay".toList)]⟩,
    ⟨"bit\\.ly", rlitCI "bit.ly"⟩,
    ⟨"tinyurl", rlitCI "tinyurl"⟩,
    ⟨"@\\w+bot\\b", rxSeqs [rlit "@", rplusCls isWordChar, rlitCI "bot", Rx.wordB]⟩ ]

/-- The configuration values of `config.py` that the analyzer reads:
`MAX_MESSAGES_PER_MINUTE = 10`, `MAX_LINKS_PER_MESSAGE = 2`. -/
def defaultConfig : Config where
  SUSPICIOUS_KEYWORDS := SUSPICIOUS_KEYWORDS_default
  SPAM_PATTERNS := SPAM_PATTERNS_default
  MAX_LINKS_PER_MESSAGE := 2
  MAX_MESSAGES_PER_MINUTE := 10

/-- The `self.user_message_times` dict: per-sender timestamp history
(absent sender ↦ `[]`, matching the lazy initialisation in the code). -/
abbrev FloodState := Int → List ℚ

/-- Fresh analyzer instance: `self.user_message_times = {}`. -/
def initState : FloodState := fun _ => []

/-- Dict update `self.user_message_times[user_id] = ts`. -/
def updState (st : FloodState) (user_id : Int) (ts : List ℚ) : FloodState :=
  fun u => if u = user_id then ts else st u

/-!  `_check_spam` -/

/-- First loop of `_check_spam`: return the 0.95 delete+ban verdict for
the first configured regex matching the raw text. -/
def spamRegexLoop : List SpamPat → List Char → Option AnalysisResult
  | [], _ => none
  | p :: rest, text =>
    if rxSearch p.rx text then
      some { is_violation := true, violation_type := some "spam", confidence := 19/20,
             reason := "Detected spam pattern: " ++ p.src,
             should_delete := true, should_warn := false,
             should_mute := false, should_ban := true }
    else spamRegexLoop rest text

/-- `_check_spam(text, text_lower)`: regex sub-test, then suspicious
keyword density (≥ 3), then the excessive-capitals test (only for texts
longer than 20 characters). -/
def checkSpam (cfg : Config) (text text_lower : List Char) : Option AnalysisResult :=
  match spamRegexLoop cfg.SPAM_PATTERNS text with
  | some r => some r
  | none =>
    let suspicious_count :=
      (cfg.SUSPICIOUS_KEYWORDS.filter (fun kw => containsSub kw text_lower)).length
    if 3 ≤ suspicious_count then
      some { is_violation := true, violation_type := some "spam", confidence := 4/5,
             reason := "Multiple suspicious keywords detected (" ++ toString suspicious_count ++ ")",
             should_delete := true, should_warn := false,
             should_mute := true, should_ban := false }
    else if 20 < text.length then
      let capsCount := (text.filter pyIsUpper).length
      if (7 : ℚ)/10 < (capsCount : ℚ) / (text.length : ℚ) then
        some { is_violation := true, violation_type := some "spam", confidence := 3/5,
               reason := "Excessive use of capital letters",
               should_delete := false, should_warn := true,
               should_mute := false, should_ban := false }
      else none
    else none

/-!  `_check_flood` -/

/-- `_check_flood(user_id)`: prune the sender's history to the last 60
seconds, append `now` (side effect performed even when no verdict is
produced), then fire iff the count exceeds the configured cap. -/
def checkFlood (cfg : Config) (st : FloodState) (user_id : Int) (now : ℚ) :
    FloodState × Option AnalysisResult :=
  let times := (st user_id).filter (fun t => decide (now - t < 60))
  let times2 := times ++ [now]
  let st2 := updState st user_id times2
  if cfg.MAX_MESSAGES_PER_MINUTE < times2.length then
    (st2, some { is_violation := true, violation_type := some "flood", confidence := 9/10,
                 reason := "Sending too many messages (" ++ toString times2.length ++ "/min)",
                 should_delete := false, should_warn := false,
                 should_mute := true, should_ban := false })
  else (st2, none)

/-!  `_check_harassment` -/

/-- The `positive_indicators` list of `_check_harassment`. -/
def positive_indicators : List (List Char) :=
  ["love", "best", "great", "awesome", "amazing", "thank", "thanks",
   "helpful", "cool", "nice", "good", "perfect", "excellent",
   "better", "life", "installed", "works", "working", "helped",
   "люблю", "лучший", "круто", "спасибо", "класс", "супер", "отлично",
   "помог", "работает", "установил"].map String.toList

/-- The `defending_patterns` list of `_check_harassment`. -/
def defending_patterns : List (List Char) :=
  ["you dont know", "you don\x27t know", "ты не знаешь",
   "you\x27re wrong", "you are wrong", "ты не прав",
   "actually", "на самом деле",
   "better", "лучше",
   "try it", "попробуй"].map String.toList

/-- `has_positive`: a positive-sentiment word occurs in the lowered text. -/
def has_positive (tl : List Char) : Bool :=
  positive_indicators.any (fun w => containsSub w tl)

/-- `this_app_context`: a generic "this/the app" phrase occurs. -/
def this_app_context (tl : List Char) : Bool :=
  containsSub ("this app".toList) tl || containsSub ("the app".toList) tl
    || containsSub ("это приложение".toList) tl || containsSub ("этот апп".toList) tl

/-- `has_relay` (before the `mentions_other` forcing): the product name
occurs literally, or a this/the-app phrase does. -/
def has_relay (tl : List Char) : Bool :=
  containsSub ("relay".toList) tl || this_app_context tl

/-- `mentions_other`: an "other app" phrase occurs. -/
def mentions_other (tl : List Char) : Bool :=
  containsSub ("other app".toList) tl || containsSub ("another app".toList) tl
    || containsSub ("другое приложение".toList) tl

/-- `is_defending` (before the `mentions_other` forcing). -/
def is_defending (tl : List Char) : Bool :=
  defending_patterns.any (fun p => containsSub p tl)

/-- The `directed_patterns` regex list of `_check_harassment`, in source
order. -/
def directed_patterns : List Rx :=
  [ rxSeqs [Rx.wordB, rlit "you", rrepUpTo rdot 10,
            rwords ["idiot", "stupid", "dumb", "moron", "loser", "suck"]],
    rxSeqs [Rx.wordB, rwords ["fuck", "screw"], rws, rwords ["you", "off"], Rx.wordB],
    rxSeqs [Rx.wordB, rlit "shut", rws, rlit "up", Rx.wordB],
    rxSeqs [Rx.wordB, rlit "ты", rrepUpTo rdot 10,
            rwords ["идиот", "тупой", "дурак", "лох"]],
    rxSeqs [Rx.wordB, rwords ["иди", "пошел"], rws, rwords ["нахуй", "в жопу"]],
    rxSeqs [Rx.wordB, rlit "you", rrepUpTo rdot 10, rlit "bitch", Rx.wordB],
    rxSeqs [Rx.wordB, rlit "p", rplusCls (· == 'e'), Rx.starCls (· == 'a'), rlit "ce",
            rws, rlit "of", rws, rwords ["bitch", "shit", "crap"], Rx.wordB],
    rxSeqs [Rx.wordB, rlit "piece", rws, rlit "of", rws,
            rwords ["bitch", "shit", "crap"], Rx.wordB],
    rxSeqs [Rx.wordB, rlit "son", rws, rlit "of", rws, ropt (rlit "a"), rws,
            rlit "bitch", Rx.wordB] ]

/-- The `offensive_patterns` regex list of `_check_harassment`, in
source order (the general, not-necessarily-directed profanity tests). -/
def offensive_patterns : List Rx :=
  [ rxSeqs [Rx.wordB, rwords ["idiot", "stupid", "dumb", "moron", "loser", "fuck",
                              "shit", "ass", "bitch", "bastard", "damn"], Rx.wordB],
    rxSeqs [Rx.wordB, rwords ["идиот", "тупой", "дурак", "лох", "блять", "сука",
                              "хуй", "пиздец", "ебать", "нахуй"], Rx.wordB],
    rxSeqs [Rx.wordB, rlit "fuck", rws, ropt (rwords ["you", "off", "this"]), Rx.wordB],
    rxSeqs [Rx.wordB, rlit "shut", rws, rlit "up", Rx.wordB],
    rxSeqs [Rx.wordB, rlit "piece", rws, rlit "of", rws,
            rwords ["shit", "crap", "garbage"], Rx.wordB],
    rxSeqs [Rx.wordB, rlit "p", rplusCls (· == 'e'), Rx.starCls (· == 'a'), rlit "ce",
            rws, rlit "of", rws, rwords ["bitch", "shit"], Rx.wordB],
    rxSeqs [Rx.wordB, rlit "son", rws, rlit "of", rws, ropt (rlit "a"), rws,
            rwords ["bitch", "whore"], Rx.wordB],
    rxSeqs [Rx.wordB,
            rxAlts [rxSeqs [rplusCls (· == 'f'), rplusCls (· == 'u'),
                            rplusCls (· == 'c'), rplusCls (· == 'k')],
                    rxSeqs [Rx.cls (· == 's'), rplusCls (· == 'h'),
                            rplusCls (· == 'i'), rplusCls (· == 't')],
                    rxSeqs [rplusCls (· == 'b'), rplusCls (· == 'i'), rplusCls (· == 't'),
                            rplusCls (· == 'c'), rplusCls (· == 'h')]],
            Rx.wordB],
    rxSeqs [rlit "you", rrepUpTo rdot 5, rwords ["suck", "stink", "smell"], Rx.wordB] ]

/-- `_check_harassment(text_lower)`.  The two pattern loops collapse to
`List.any` because the inner conditions do not depend on the pattern:
the first matching directed pattern returns either the defender pass or
the 0.9 verdict, and the offensive loop only ever fires under the
pattern-independent guard `len < 30 ∧ ¬has_relay`. -/
def checkHarassment (tl : List Char) : Option AnalysisResult :=
  let hp := has_positive tl
  let mo := mentions_other tl
  let hr := if mo then false else has_relay tl
  let idf := if mo then false else is_defending tl
  if (hp || idf) && hr && !mo then none
  else if hp && hr then none
  else if directed_patterns.any (fun p => rxSearch p tl) then
    if hr && (hp || idf) then none
    else
      some { is_violation := true, violation_type := some "harassment", confidence := 9/10,
             reason := "Directed insult or harassment detected",
             should_delete := true, should_warn := true,
             should_mute := false, should_ban := false }
  else if offensive_patterns.any (fun p => rxSearch p tl)
          && decide (tl.length < 30) && !has_relay tl then
    some { is_violation := true, violation_type := some "harassment", confidence := 3/5,
           reason := "Potentially offensive language",
           should_delete := false, should_warn := true,
           should_mute := false, should_ban := false }
  else none

/-!  `_check_external_links` -/

/-- Split a text at the first whitespace character (the greedy
`[^\s]+`). -/
def urlSpan (s : List Char) : List Char × List Char :=
  (s.takeWhile (fun c => !pyIsSpace c), s.dropWhile (fun c => !pyIsSpace c))

/-- Match `https?://[^\s]+` at the head of the input, returning the
matched URL and the remaining input. -/
def matchUrl : List Char → Option (List Char × List Char)
  | 'h' :: 't' :: 't' :: 'p' :: 's' :: ':' :: '/' :: '/' :: rest =>
    match urlSpan rest with
    | ([], _) => none
    | (run, rest2) => some (['h', 't', 't', 'p', 's', ':', '/', '/'] ++ run, rest2)
  | 'h' :: 't' :: 't' :: 'p' :: ':' :: '/' :: '/' :: rest =>
    match urlSpan rest with
    | ([], _) => none
    | (run, rest2) => some (['h', 't', 't', 'p', ':', '/', '/'] ++ run, rest2)
  | _ => none

/-- Fuelled scan of `re.findall(r'https?://[^\s]+', text)`: leftmost
non-overlapping matches.  Each step consumes at least one character, so
fuel `s.length` never runs out. -/
def findUrlsF : Nat → List Char → List (List Char)
  | 0, _ => []
  | _, [] => []
  | fuel + 1, c :: rest =>
    match matchUrl (c :: rest) with
    | some (url, rem) => url :: findUrlsF fuel rem
    | none => findUrlsF fuel rest

/-- `re.findall(r'https?://[^\s]+', text)`. -/
def findUrls (s : List Char) : List (List Char) := findUrlsF s.length s

/-- The hard-coded `allowed_domains` list of `_check_external_links`. -/
def allowed_domains : List (List Char) :=
  ["relay", "github.com/sunopiusme", "brew.sh",
   "apple.com", "developer.apple.com", "t.me/relay"].map String.toList

/-- Per-URL loop of `_check_external_links`: flag the first URL whose
lowered form contains no allowed domain and that does not contain
`t.me` (tested on the raw URL). -/
def linkLoop : List (List Char) → Option AnalysisResult
  | [] => none
  | url :: rest =>
    let is_allowed := allowed_domains.any (fun d => containsSub d (pyLowerStr url))
    if !is_allowed && !containsSub ("t.me".toList) url then
      some { is_violation := true, violation_type := some "external_links", confidence := 1/2,
             reason := "External link detected: " ++ String.mk (url.take 50) ++ "...",
             should_delete := false, should_warn := true,
             should_mute := false, should_ban := false }
    else linkLoop rest

/-- `_check_external_links(text)`. -/
def checkExternalLinks (cfg : Config) (text : List Char) : Option AnalysisResult :=
  let urls := findUrls text
  if cfg.MAX_LINKS_PER_MESSAGE < urls.length then
    some { is_violation := true, violation_type := some "external_links", confidence := 7/10,
           reason := "Too many links (" ++ toString urls.length ++ ")",
           should_delete := true, should_warn := true,
           should_mute := false, should_ban := false }
  else linkLoop urls

/-!  `_check_off_topic` -/

/-- The `RELAY_KEYWORDS` class constant (on-topic indicators). -/
def RELAY_KEYWORDS : List (List Char) :=
  ["relay", "update", "app", "macos", "mac", "homebrew", "brew",
   "install", "download", "version", "bug", "feature", "crash",
   "error", "issue", "help", "question", "rollback", "backup",
   "обновление", "приложение", "баг", "ошибка", "установка",
   "скачать", "версия", "откат", "бэкап", "вопрос"].map String.toList

/-- `_check_off_topic(text_lower)`. -/
def checkOffTopic (tl : List Char) : Option AnalysisResult :=
  if tl.length < 30 then none
  else
    let relay_keyword_count := (RELAY_KEYWORDS.filter (fun kw => containsSub kw tl)).length
    if relay_keyword_count = 0 && decide (100 < tl.length) then
      some { is_violation := true, violation_type := some "off_topic", confidence := 3/10,
             reason := "Message may be off-topic (no Relay-related keywords)",
             should_delete := false, should_warn := false,
             should_mute := false, should_ban := false }
    else none

/-!  `analyze` and `analyze_report` -/

/-- `analyze(text, user_id)`: the five checks in strict priority order,
the first that fires wins; the flood check's state update survives in
either case.  (The `username` parameter of the source is unused by its
body and therefore omitted.) -/
def analyze (cfg : Config) (st : FloodState) (now : ℚ) (text : List Char) (user_id : Int) :
    FloodState × AnalysisResult :=
  let text_lower := pyLowerStr text
  match checkSpam cfg text text_lower with
  | some r => (st, r)
  | none =>
    match checkFlood cfg st user_id now with
    | (st2, some r) => (st2, r)
    | (st2, none) =>
      match checkHarassment text_lower with
      | some r => (st2, r)
      | none =>
        match checkExternalLinks cfg text with
        | some r => (st2, r)
        | none =>
          match checkOffTopic text_lower with
          | some r => (st2, r)
          | none =>
            (st2, { is_violation := false, violation_type := none, confidence := 0,
                    reason := "Message appears to follow community rules",
                    should_delete := false, should_warn := false,
                    should_mute := false, should_ban := false })

/-- The `harassment_keywords` list of `analyze_report`. -/
def harassment_keywords : List (List Char) :=
  ["harass", "insult", "rude", "offensive", "attack",
   "оскорб", "грубо", "хамство", "атака"].map String.toList

/-- The `spam_keywords` list of `analyze_report`. -/
def spam_keywords : List (List Char) :=
  ["spam", "ad", "promo", "scam", "спам", "реклама"].map String.toList

/-- The `offtopic_keywords` list of `analyze_report`. -/
def offtopic_keywords : List (List Char) :=
  ["off-topic", "unrelated", "не по теме", "оффтоп"].map String.toList

/-- `analyze_report(reported_text, reporter_reason)`: run the primary
classifier with sender id 0; keep its verdict when it is a violation
with confidence above 0.7; otherwise scan the lowered reporter reason
against the three keyword sets in priority order. -/
def analyzeReport (cfg : Config) (st : FloodState) (now : ℚ)
    (reported_text reporter_reason : List Char) : FloodState × AnalysisResult :=
  let pr := analyze cfg st now reported_text 0
  if pr.2.is_violation = true ∧ (7 : ℚ)/10 < pr.2.confidence then pr
  else
    let reason_lower := pyLowerStr reporter_reason
    if harassment_keywords.any (fun kw => containsSub kw reason_lower) then
      (pr.1, { is_violation := true, violation_type := some "harassment", confidence := 3/5,
               reason := "Reported for harassment: " ++ String.mk reporter_reason,
               should_delete := false, should_warn := true,
               should_mute := false, should_ban := false })
    else if spam_keywords.any (fun kw => containsSub kw reason_lower) then
      (pr.1, { is_violation := true, violation_type := some "spam", confidence := 3/5,
               reason := "Reported as spam: " ++ String.mk reporter_reason,
               should_delete := true, should_warn := false,
               should_mute := true, should_ban := false })
    else if offtopic_keywords.any (fun kw => containsSub kw reason_lower) then
      (pr.1, { is_violation := true, violation_type := some "off_topic", confidence := 1/2,
               reason := "Reported as off-topic: " ++ String.mk reporter_reason,
               should_delete := false, should_warn := true,
               should_mute := false, should_ban := false })
    else
      (pr.1, { is_violation := false, violation_type := none, confidence := 0,
               reason := "Report requires admin review",
               should_delete := false, should_warn := false,
               should_mute := false, should_ban := false })

/-- The clean "no violation" verdict `analyze` returns when no check
fires. -/
def cleanResult : AnalysisResult :=
  { is_violation := false, violation_type := none, confidence := 0,
    reason := "Message appears to follow community rules",
    should_delete := false, should_warn := false,
    should_mute := false, should_ban := false }

/-- Iterated `analyze_report` calls: the flood side table accumulated
by a sequence of reports (verdicts discarded, state threaded). -/
def runReports (cfg : Config) (now : ℚ) :
    FloodState → List (List Char × List Char) → FloodState
  | st, [] => st
  | st, (t, r) :: rest => runReports cfg now (analyzeReport cfg st now t r).1 rest

/-!  Structural lemmas: the shape of every verdict a check can emit,
and the case analysis of `analyze`'s priority chain. -/

theorem spamRegexLoop_shape :
    ∀ ps text v, spamRegexLoop ps text = some v →
      v.is_violation = true ∧ v.violation_type = some "spam" ∧ v.confidence = 19/20 ∧
      v.should_delete = true ∧ v.should_warn = false ∧
      v.should_mute = false ∧ v.should_ban = true := by
  intro ps
  induction ps with
  | nil => intro text v h; simp [spamRegexLoop] at h
  | cons p rest ih =>
    intro text v h
    by_cases hp : rxSearch p.rx text = true
    · simp only [spamRegexLoop, hp, if_true, Option.some.injEq] at h
      subst h; simp
    · simp only [spamRegexLoop, hp, if_false, Bool.false_eq_true] at h
      exact ih text v h

theorem spamRegexLoop_fires :
    ∀ ps text, (∃ p ∈ ps, rxSearch p.rx text = true) →
      (spamRegexLoop ps text).isSome = true := by
  intro ps
  induction ps with
  | nil => intro text h; simp at h
  | cons p rest ih =>
    intro text h
    by_cases hp : rxSearch p.rx text = true
    · simp [spamRegexLoop, hp]
    · simp only [List.mem_cons] at h
      obtain ⟨q, hq, hqs⟩ := h
      rcases hq with rfl | hq
      · exact absurd hqs hp
      · simpa [spamRegexLoop, hp] using ih text ⟨q, hq, hqs⟩

theorem checkSpam_shape {cfg : Config} {text tl : List Char} {v : AnalysisResult}
    (h : checkSpam cfg text tl = some v) :
    v.is_violation = true ∧ v.violation_type = some "spam" ∧
    0 ≤ v.confidence ∧ v.confidence ≤ 1 := by
  unfold checkSpam at h
  cases hl : spamRegexLoop cfg.SPAM_PATTERNS text with
  | some r =>
    simp only [hl] at h
    obtain rfl : r = v := by simpa using h
    obtain ⟨h1, h2, h3, _⟩ := spamRegexLoop_shape _ _ _ hl
    exact ⟨h1, h2, by rw [h3]; norm_num, by rw [h3]; norm_num⟩
  | none =>
    simp only [hl] at h
    split at h
    · obtain rfl : _ = v := Option.some_injective _ h
      refine ⟨rfl, rfl, by norm_num, by norm_num⟩
    · split at h
      · split at h
        · obtain rfl : _ = v := Option.some_injective _ h
          refine ⟨rfl, rfl, by norm_num, by norm_num⟩
        · simp at h
      · simp at h

/-- Evaluation equation of `_check_flood`: the state update is
unconditional and the verdict fires iff pruned count + 1 exceeds the
cap. -/
theorem checkFlood_eq (cfg : Config) (st : FloodState) (uid : Int) (now : ℚ) :
    checkFlood cfg st uid now =
      (updState st uid (((st uid).filter (fun t => decide (now - t < 60))) ++ [now]),
       if cfg.MAX_MESSAGES_PER_MINUTE
            < ((st uid).filter (fun t => decide (now - t < 60))).length + 1 then
         some { is_violation := true, violation_type := some "flood", confidence := 9/10,
                reason := "Sending too many messages ("
                  ++ toString (((st uid).filter (fun t => decide (now - t < 60))).length + 1)
                  ++ "/min)",
                should_delete := false, should_warn := false,
                should_mute := true, should_ban := false }
       else none) := by
  unfold checkFlood
  simp only [List.length_append, List.length_singleton]
  split <;> rfl

theorem checkFlood_shape {cfg : Config} {st : FloodState} {uid : Int} {now : ℚ}
    {v : AnalysisResult} (h : (checkFlood cfg st uid now).2 = some v) :
    v.is_violation = true ∧ v.violation_type = some "flood" ∧ v.confidence = 9/10 ∧
    v.should_delete = false ∧ v.should_warn = false ∧
    v.should_mute = true ∧ v.should_ban = false := by
  rw [checkFlood_eq] at h
  simp only at h
  split at h
  all_goals try (injection h with h1)
  all_goals try subst h1
  all_goals try simp at h
  all_goals simp

theorem checkHarassment_shape {tl : List Char} {v : AnalysisResult}
    (h : checkHarassment tl = some v) :
    v.is_violation = true ∧ v.violation_type = some "harassment" ∧
    (v.confidence = 9/10 ∨ v.confidence = 3/5) := by
  unfold checkHarassment at h
  dsimp only at h
  repeat' split at h
  all_goals try (injection h with h1)
  all_goals try subst h1
  all_goals try simp at h
  all_goals simp

theorem linkLoop_shape :
    ∀ urls v, linkLoop urls = some v →
      v.is_violation = true ∧ v.violation_type = some "external_links" ∧
      v.confidence = 1/2 ∧ v.should_delete = false ∧ v.should_warn = true ∧
      v.should_mute = false ∧ v.should_ban = false := by
  intro urls
  induction urls with
  | nil => intro v h; simp [linkLoop] at h
  | cons url rest ih =>
    intro v h
    simp only [linkLoop] at h
    split at h
    · injection h with h1; subst h1; simp
    · exact ih v h

theorem checkExternalLinks_shape {cfg : Config} {text : List Char} {v : AnalysisResult}
    (h : checkExternalLinks cfg text = some v) :
    v.is_violation = true ∧ v.violation_type = some "external_links" ∧
    (v.confidence = 7/10 ∨ v.confidence = 1/2) := by
  unfold checkExternalLinks at h
  dsimp only at h
  split at h
  · injection h with h1; subst h1; simp
  · obtain ⟨h1, h2, h3, _⟩ := linkLoop_shape _ _ h
    exact ⟨h1, h2, Or.inr h3⟩

theorem checkOffTopic_shape {tl : List Char} {v : AnalysisResult}
    (h : checkOffTopic tl = some v) :
    v.is_violation = true ∧ v.violation_type = some "off_topic" ∧ v.confidence = 3/10 ∧
    v.should_delete = false ∧ v.should_warn = false ∧
    v.should_mute = false ∧ v.should_ban = false := by
  unfold checkOffTopic at h
  dsimp only at h
  repeat' split at h
  all_goals try (injection h with h1)
  all_goals try subst h1
  all_goals try simp at h
  all_goals simp

theorem analyze_cases (cfg : Config) (st : FloodState) (now : ℚ)
    (text : List Char) (uid : Int) :
    (analyze cfg st now text uid).2 = cleanResult
    ∨ checkSpam cfg text (pyLowerStr text) = some (analyze cfg st now text uid).2
    ∨ (checkFlood cfg st uid now).2 = some (analyze cfg st now text uid).2
    ∨ checkHarassment (pyLowerStr text) = some (analyze cfg st now text uid).2
    ∨ checkExternalLinks cfg text = some (analyze cfg st now text uid).2
    ∨ checkOffTopic (pyLowerStr text) = some (analyze cfg st now text uid).2 := by
  unfold analyze
  cases h1 : checkSpam cfg text (pyLowerStr text) with
  | some r => simp [h1]
  | none =>
    cases h2 : checkFlood cfg st uid now with
    | mk st2 fr =>
      cases fr with
      | some r => simp [h1, h2]
      | none =>
        cases h3 : checkHarassment (pyLowerStr text) with
        | some r => simp [h1, h2, h3]
        | none =>
          cases h4 : checkExternalLinks cfg text with
          | some r => simp [h1, h2, h3, h4]
          | none =>
            cases h5 : checkOffTopic (pyLowerStr text) with
            | some r => simp [h1, h2, h3, h4, h5]
            | none => simp [h1, h2, h3, h4, h5, cleanResult]

/-- Timestamps within the window are kept by the flood prune. -/
theorem filter_window_self (now : ℚ) (l : List ℚ) (hl : ∀ x ∈ l, now - x < 60) :
    l.filter (fun t => decide (now - t < 60)) = l :=
  List.filter_eq_self.mpr (fun a ha => decide_eq_true (hl a ha))

/-!  Claim theorems.  The rational arithmetic of the embedding must
evaluate inside `decide` proofs, so the library's irreducibility
markers on the `Rat` operations are relaxed locally. -/

section ClaimTheorems

attribute [local semireducible] Rat.sub Rat.add Rat.mul Rat.inv

set_option maxRecDepth 40000

/-- C2: the flood check always prunes the sender's history to the last
60 seconds and appends the current time (also when no verdict results),
and returns a flood verdict (confidence 0.9, kind flood, mute only)
exactly when the resulting count exceeds the configured cap — on the
message crossing the threshold and on no earlier one. -/
theorem C2_flood_threshold (cfg : Config) (st : FloodState) (uid : Int) (now : ℚ) :
    (checkFlood cfg st uid now).1
      = updState st uid (((st uid).filter (fun t => decide (now - t < 60))) ++ [now])
    ∧ ((checkFlood cfg st uid now).2.isSome
        ↔ cfg.MAX_MESSAGES_PER_MINUTE
            < ((st uid).filter (fun t => decide (now - t < 60))).length + 1)
    ∧ (∀ v, (checkFlood cfg st uid now).2 = some v →
        v.is_violation = true ∧ v.violation_type = some "flood" ∧ v.confidence = 9/10 ∧
        v.should_mute = true ∧ v.should_delete = false ∧
        v.should_warn = false ∧ v.should_ban = false) := by
  refine ⟨by rw [checkFlood_eq], ?_, ?_⟩
  · rw [checkFlood_eq]
    dsimp only
    split
    · next hc => simpa using hc
    · next hc => simpa using hc
  · intro v hv
    obtain ⟨a, b, c, d, e, f, g⟩ := checkFlood_shape hv
    exact ⟨a, b, c, f, d, e, g⟩

/-- Witness for C2: with ten in-window timestamps recorded, the verdict
on the next message is the flood verdict. -/
theorem C2_flood_threshold_witness :
    ∃ v, (checkFlood defaultConfig (fun _ => List.replicate 10 (0 : ℚ)) 0 0).2 = some v
      ∧ v.is_violation = true ∧ v.violation_type = some "flood" ∧ v.confidence = 9/10 ∧
        v.should_mute = true ∧ v.should_delete = false ∧
        v.should_warn = false ∧ v.should_ban = false := by
  refine ⟨{ is_violation := true, violation_type := some "flood", confidence := 9/10,
            reason := "Sending too many messages (11/min)",
            should_delete := false, should_warn := false,
            should_mute := true, should_ban := false }, by decide, ?_⟩
  exact (C2_flood_threshold defaultConfig (fun _ => List.replicate 10 (0 : ℚ)) 0 0).2.2
    _ (by decide)

/-- C4: any text matched by a configured spam regex yields a spam
verdict with confidence 0.95, delete and ban recommended, and no other
flags — the regex sub-test has strict priority over the keyword-count
sub-test, so this holds regardless of how many suspicious keywords the
text also contains. -/
theorem C4_spam_regex_priority (cfg : Config) (st : FloodState) (now : ℚ)
    (text : List Char) (uid : Int)
    (h : ∃ p ∈ cfg.SPAM_PATTERNS, rxSearch p.rx text = true) :
    (analyze cfg st now text uid).2.is_violation = true
    ∧ (analyze cfg st now text uid).2.violation_type = some "spam"
    ∧ (analyze cfg st now text uid).2.confidence = 19/20
    ∧ (analyze cfg st now text uid).2.should_delete = true
    ∧ (analyze cfg st now text uid).2.should_ban = true
    ∧ (analyze cfg st now text uid).2.should_warn = false
    ∧ (analyze cfg st now text uid).2.should_mute = false := by
  obtain ⟨r, hr⟩ : ∃ r, spamRegexLoop cfg.SPAM_PATTERNS text = some r :=
    Option.isSome_iff_exists.mp (spamRegexLoop_fires _ _ h)
  have hcs : checkSpam cfg text (pyLowerStr text) = some r := by
    unfold checkSpam; rw [hr]
  have hres : (analyze cfg st now text uid).2 = r := by
    unfold analyze; dsimp only; rw [hcs]
  obtain ⟨a, b, c, d, e, f, g⟩ := spamRegexLoop_shape _ _ _ hr
  rw [hres]
  exact ⟨a, b, c, d, g, e, f⟩

/-- Witness for C4: a text matching `bit\.ly` that also contains three
suspicious keywords still gets the 0.95 regex verdict. -/
theorem C4_spam_regex_priority_witness :
    (analyze defaultConfig initState 0
        ("bit.ly crypto invest free bitcoin".toList) 7).2.confidence = 19/20
    ∧ (analyze defaultConfig initState 0
        ("bit.ly crypto invest free bitcoin".toList) 7).2.should_ban = true :=
  ⟨(C4_spam_regex_priority defaultConfig initState 0
      ("bit.ly crypto invest free bitcoin".toList) 7 (by decide)).2.2.1,
   (C4_spam_regex_priority defaultConfig initState 0
      ("bit.ly crypto invest free bitcoin".toList) 7 (by decide)).2.2.2.2.1⟩

/-- C3: on any lowered text with (positive or defending) and a Relay
mention and no other-app mention, the harassment check passes silently,
even when a directed-insult pattern also matches; in particular the
message "I love Relay, this app is the best!!" never yields a
harassment verdict from `analyze`, whatever the configuration and flood
state. -/
theorem C3_defender_override :
    (∀ tl : List Char,
      (has_positive tl || is_defending tl) = true →
      has_relay tl = true →
      mentions_other tl = false →
      checkHarassment tl = none)
    ∧ ∀ (cfg : Config) (st : FloodState) (now : ℚ) (uid : Int),
        (analyze cfg st now ("I love Relay, this app is the best!!".toList) uid).2.violation_type
          ≠ some "harassment" := by
  constructor
  · intro tl h1 h2 h3
    unfold checkHarassment
    simp [h1, h2, h3]
  · intro cfg st now uid
    rcases analyze_cases cfg st now ("I love Relay, this app is the best!!".toList) uid with
      hc | hs | hf | hh | hl | ho
    · rw [hc]; simp [cleanResult]
    · rw [(checkSpam_shape hs).2.1]; simp
    · rw [(checkFlood_shape hf).2.1]; simp
    · rw [(by decide :
          checkHarassment (pyLowerStr ("I love Relay, this app is the best!!".toList))
            = none)] at hh
      exact absurd hh (by simp)
    · rw [(checkExternalLinks_shape hl).2.1]; simp
    · rw [(checkOffTopic_shape ho).2.1]; simp

/-- Witness for C3: the defender branch fires on the lowered example
message. -/
theorem C3_defender_override_witness :
    checkHarassment (pyLowerStr ("I love Relay, this app is the best!!".toList)) = none :=
  C3_defender_override.1 _ (by decide) (by decide) (by decide)

/-- Evaluation of `analyze` when the spam check does not fire: the
state comes from the flood check and the verdict from the remaining
priority chain. -/
theorem analyze_eq_of_spam_none (cfg : Config) (st : FloodState) (now : ℚ)
    (text : List Char) (uid : Int)
    (hcs : checkSpam cfg text (pyLowerStr text) = none) :
    analyze cfg st now text uid =
      ((checkFlood cfg st uid now).1,
       match (checkFlood cfg st uid now).2 with
       | some r => r
       | none =>
         match checkHarassment (pyLowerStr text) with
         | some r => r
         | none =>
           match checkExternalLinks cfg text with
           | some r => r
           | none =>
             match checkOffTopic (pyLowerStr text) with
             | some r => r
             | none => cleanResult) := by
  unfold analyze
  dsimp only
  rw [hcs]
  rcases hf : checkFlood cfg st uid now with ⟨st2, fr⟩
  cases fr with
  | some r => rfl
  | none =>
    cases checkHarassment (pyLowerStr text) <;>
      cases checkExternalLinks cfg text <;>
        cases checkOffTopic (pyLowerStr text) <;> rfl

/-- The report analysis threads exactly the state produced by the
primary classification of the reported text under sender id 0. -/
theorem analyzeReport_state (cfg : Config) (st : FloodState) (now : ℚ) (t r : List Char) :
    (analyzeReport cfg st now t r).1 = (analyze cfg st now t 0).1 := by
  unfold analyzeReport
  dsimp only
  repeat' split
  all_goals rfl

/-- The five possible outcomes of `analyze_report`: a high-confidence
primary verdict, one of the three reporter-keyword verdicts, or the
needs-review verdict. -/
theorem analyzeReport_cases (cfg : Config) (st : FloodState) (now : ℚ) (t r : List Char) :
    ((analyzeReport cfg st now t r).2 = (analyze cfg st now t 0).2
      ∧ (analyze cfg st now t 0).2.is_violation = true)
    ∨ (analyzeReport cfg st now t r).2
        = { is_violation := true, violation_type := some "harassment", confidence := 3/5,
            reason := "Reported for harassment: " ++ String.mk r,
            should_delete := false, should_warn := true,
            should_mute := false, should_ban := false }
    ∨ (analyzeReport cfg st now t r).2
        = { is_violation := true, violation_type := some "spam", confidence := 3/5,
            reason := "Reported as spam: " ++ String.mk r,
            should_delete := true, should_warn := false,
            should_mute := true, should_ban := false }
    ∨ (analyzeReport cfg st now t r).2
        = { is_violation := true, violation_type := some "off_topic", confidence := 1/2,
            reason := "Reported as off-topic: " ++ String.mk r,
            should_delete := false, should_warn := true,
            should_mute := false, should_ban := false }
    ∨ (analyzeReport cfg st now t r).2
        = { is_violation := false, violation_type := none, confidence := 0,
            reason := "Report requires admin review",
            should_delete := false, should_warn := false,
            should_mute := false, should_ban := false } := by
  unfold analyzeReport
  dsimp only
  split
  · next hg => exact Or.inl ⟨rfl, hg.1⟩
  · split
    · exact Or.inr (Or.inl rfl)
    · split
      · exact Or.inr (Or.inr (Or.inl rfl))
      · split
        · exact Or.inr (Or.inr (Or.inr (Or.inl rfl)))
        · exact Or.inr (Or.inr (Or.inr (Or.inr rfl)))

/-- C7: whenever `analyze` or `analyze_report` returns a verdict with
`is_violation` false — the clean verdict and the needs-human-review
verdict — all four action flags are false, the confidence is 0.0, and
the violation kind is absent. -/
theorem C7_no_violation_all_clear (cfg : Config) (st : FloodState) (now : ℚ)
    (text : List Char) (uid : Int) (reason : List Char) :
    ((analyze cfg st now text uid).2.is_violation = false →
      (analyze cfg st now text uid).2.should_delete = false
      ∧ (analyze cfg st now text uid).2.should_warn = false
      ∧ (analyze cfg st now text uid).2.should_mute = false
      ∧ (analyze cfg st now text uid).2.should_ban = false
      ∧ (analyze cfg st now text uid).2.confidence = 0
      ∧ (analyze cfg st now text uid).2.violation_type = none)
    ∧ ((analyzeReport cfg st now text reason).2.is_violation = false →
      (analyzeReport cfg st now text reason).2.should_delete = false
      ∧ (analyzeReport cfg st now text reason).2.should_warn = false
      ∧ (analyzeReport cfg st now text reason).2.should_mute = false
      ∧ (analyzeReport cfg st now text reason).2.should_ban = false
      ∧ (analyzeReport cfg st now text reason).2.confidence = 0
      ∧ (analyzeReport cfg st now text reason).2.violation_type = none) := by
  constructor
  · intro h
    rcases analyze_cases cfg st now text uid with hc | hs | hf | hh | hl | ho
    · rw [hc]; simp [cleanResult]
    · exact absurd (checkSpam_shape hs).1 (by rw [h]; simp)
    · exact absurd (checkFlood_shape hf).1 (by rw [h]; simp)
    · exact absurd (checkHarassment_shape hh).1 (by rw [h]; simp)
    · exact absurd (checkExternalLinks_shape hl).1 (by rw [h]; simp)
    · exact absurd (checkOffTopic_shape ho).1 (by rw [h]; simp)
  · intro h
    rcases analyzeReport_cases cfg st now text reason with ⟨he, hv⟩ | he | he | he | he
    · rw [he] at h; exact absurd hv (by rw [h]; simp)
    · rw [he] at h; simp at h
    · rw [he] at h; simp at h
    · rw [he] at h; simp at h
    · rw [he]; simp

/-- Witness for C7: the empty message is clean, and the empty report
reason produces the needs-review verdict; both outcomes carry no
flags, confidence 0 and no kind. -/
theorem C7_no_violation_all_clear_witness :
    ((analyze defaultConfig initState 0 [] 1).2.should_delete = false
      ∧ (analyze defaultConfig initState 0 [] 1).2.should_warn = false
      ∧ (analyze defaultConfig initState 0 [] 1).2.should_mute = false
      ∧ (analyze defaultConfig initState 0 [] 1).2.should_ban = false
      ∧ (analyze defaultConfig initState 0 [] 1).2.confidence = 0
      ∧ (analyze defaultConfig initState 0 [] 1).2.violation_type = none)
    ∧ ((analyzeReport defaultConfig initState 0 [] []).2.should_delete = false
      ∧ (analyzeReport defaultConfig initState 0 [] []).2.should_warn = false
      ∧ (analyzeReport defaultConfig initState 0 [] []).2.should_mute = false
      ∧ (analyzeReport defaultConfig initState 0 [] []).2.should_ban = false
      ∧ (analyzeReport defaultConfig initState 0 [] []).2.confidence = 0
      ∧ (analyzeReport defaultConfig initState 0 [] []).2.violation_type = none) :=
  ⟨(C7_no_violation_all_clear defaultConfig initState 0 [] 1 []).1 (by decide),
   (C7_no_violation_all_clear defaultConfig initState 0 [] 1 []).2 (by decide)⟩

/-- C10: `analyze` is total over all inputs — every verdict carries a
confidence inside [0, 1] — and empty configuration lists degrade
gracefully: with no spam regexes and no suspicious keywords the spam
check either stays silent or fires only as the capitals verdict, whose
division is guarded by the length-over-20 test. -/
theorem C10_totality_graceful (cfg : Config) (st : FloodState) (now : ℚ)
    (text : List Char) (uid : Int) :
    (0 ≤ (analyze cfg st now text uid).2.confidence
      ∧ (analyze cfg st now text uid).2.confidence ≤ 1)
    ∧ (cfg.SPAM_PATTERNS = [] → cfg.SUSPICIOUS_KEYWORDS = [] →
        checkSpam cfg text (pyLowerStr text) = none
        ∨ checkSpam cfg text (pyLowerStr text)
            = some { is_violation := true, violation_type := some "spam", confidence := 3/5,
                     reason := "Excessive use of capital letters",
                     should_delete := false, should_warn := true,
                     should_mute := false, should_ban := false }) := by
  constructor
  · rcases analyze_cases cfg st now text uid with hc | hs | hf | hh | hl | ho
    · rw [hc]; constructor <;> norm_num [cleanResult]
    · exact (checkSpam_shape hs).2.2
    · have hcv := (checkFlood_shape hf).2.2.1
      constructor <;> rw [hcv] <;> norm_num
    · rcases (checkHarassment_shape hh).2.2 with hcv | hcv <;>
        (constructor <;> rw [hcv] <;> norm_num)
    · rcases (checkExternalLinks_shape hl).2.2 with hcv | hcv <;>
        (constructor <;> rw [hcv] <;> norm_num)
    · have hcv := (checkOffTopic_shape ho).2.2.1
      constructor <;> rw [hcv] <;> norm_num
  · intro h1 h2
    unfold checkSpam
    rw [h1, h2]
    simp only [spamRegexLoop, List.filter_nil, List.length_nil]
    rw [if_neg (by norm_num : ¬ (3 : ℕ) ≤ 0)]
    split
    · split
      · exact Or.inr rfl
      · exact Or.inl rfl
    · exact Or.inl rfl

/-- Witness for C10: under an empty keyword and regex configuration the
spam check on a short text fires at most as the capitals verdict. -/
theorem C10_totality_graceful_witness :
    checkSpam ⟨[], [], 2, 10⟩ ("A".toList) (pyLowerStr ("A".toList)) = none
    ∨ checkSpam ⟨[], [], 2, 10⟩ ("A".toList) (pyLowerStr ("A".toList))
        = some { is_violation := true, violation_type := some "spam", confidence := 3/5,
                 reason := "Excessive use of capital letters",
                 should_delete := false, should_warn := true,
                 should_mute := false, should_ban := false } :=
  (C10_totality_graceful ⟨[], [], 2, 10⟩ initState 0 ("A".toList) 3).2 rfl rfl

/-- C6: `analyze_report` returns the primary verdict exactly when that
verdict is a violation with confidence strictly above 0.7; otherwise it
scans the lowered reason against the harassment, spam and off-topic
keyword sets in that priority order, with fixed confidences 0.6, 0.6
and 0.5 and the corresponding action profiles, falling back to the
needs-review verdict; in particular the empty reported text with reason
"this is spam advertising" yields the spam report verdict at 0.6. -/
theorem C6_report_gate_and_fallback (cfg : Config) (st : FloodState) (now : ℚ)
    (t r : List Char) :
    (analyzeReport cfg st now t r
      = ((analyze cfg st now t 0).1,
         if (analyze cfg st now t 0).2.is_violation = true
             ∧ (7 : ℚ)/10 < (analyze cfg st now t 0).2.confidence then
           (analyze cfg st now t 0).2
         else if harassment_keywords.any (fun kw => containsSub kw (pyLowerStr r)) then
           { is_violation := true, violation_type := some "harassment", confidence := 3/5,
             reason := "Reported for harassment: " ++ String.mk r,
             should_delete := false, should_warn := true,
             should_mute := false, should_ban := false }
         else if spam_keywords.any (fun kw => containsSub kw (pyLowerStr r)) then
           { is_violation := true, violation_type := some "spam", confidence := 3/5,
             reason := "Reported as spam: " ++ String.mk r,
             should_delete := true, should_warn := false,
             should_mute := true, should_ban := false }
         else if offtopic_keywords.any (fun kw => containsSub kw (pyLowerStr r)) then
           { is_violation := true, violation_type := some "off_topic", confidence := 1/2,
             reason := "Reported as off-topic: " ++ String.mk r,
             should_delete := false, should_warn := true,
             should_mute := false, should_ban := false }
         else
           { is_violation := false, violation_type := none, confidence := 0,
             reason := "Report requires admin review",
             should_delete := false, should_warn := false,
             should_mute := false, should_ban := false }))
    ∧ (analyzeReport defaultConfig initState 0 [] ("this is spam advertising".toList)).2
        = { is_violation := true, violation_type := some "spam", confidence := 3/5,
            reason := "Reported as spam: this is spam advertising",
            should_delete := true, should_warn := false,
            should_mute := true, should_ban := false } := by
  constructor
  · unfold analyzeReport
    dsimp only
    split
    · rfl
    · repeat' split
      all_goals rfl
  · decide

/-- C9: calling `analyze` twice in succession with identical arguments
on a sender with no prior history produces identical verdicts, except
where the flood counter's accumulated side effect makes the second call
return the flood verdict — the flood state is the only source of
non-idempotence. -/
theorem C9_idempotence_up_to_flood (cfg : Config) (st : FloodState) (now : ℚ)
    (text : List Char) (uid : Int) (h : st uid = []) :
    (analyze cfg ((analyze cfg st now text uid).1) now text uid).2
      = (analyze cfg st now text uid).2
    ∨ (analyze cfg ((analyze cfg st now text uid).1) now text uid).2.violation_type
      = some "flood" := by
  cases hcs : checkSpam cfg text (pyLowerStr text) with
  | some r =>
    left
    have e1 : analyze cfg st now text uid = (st, r) := by
      unfold analyze; dsimp only; rw [hcs]
    rw [e1]; dsimp only; rw [e1]
  | none =>
    have e1 := analyze_eq_of_spam_none cfg st now text uid hcs
    have hFr : (st uid).filter (fun t => decide (now - t < 60)) = [] := by
      rw [h]; rfl
    have hst1 : (analyze cfg st now text uid).1 = updState st uid [now] := by
      rw [e1]; dsimp only; rw [checkFlood_eq]; dsimp only; rw [hFr]; rfl
    have hup : (updState st uid [now]) uid = [now] := by simp [updState]
    have hFr2 : ((updState st uid [now]) uid).filter (fun t => decide (now - t < 60))
        = [now] := by
      rw [hup]
      refine filter_window_self now [now] ?_
      intro x hx
      rw [List.mem_singleton] at hx
      rw [hx, sub_self]
      norm_num
    have hf2eq := checkFlood_eq cfg (updState st uid [now]) uid now
    rw [hFr2] at hf2eq
    have e2 := analyze_eq_of_spam_none cfg (updState st uid [now]) now text uid hcs
    by_cases hm : cfg.MAX_MESSAGES_PER_MINUTE < 2
    · right
      rw [hst1, e2]
      dsimp only
      rw [hf2eq]
      dsimp only
      rw [if_pos (by simpa using hm)]
    · left
      have hm1 : ¬ cfg.MAX_MESSAGES_PER_MINUTE < 1 :=
        fun hx => hm (Nat.lt_of_lt_of_le hx (by norm_num))
      have hfl1 : (checkFlood cfg st uid now).2 = none := by
        rw [checkFlood_eq]
        dsimp only
        rw [hFr]
        exact if_neg (by simpa using hm1)
      have hfl2 : (checkFlood cfg (updState st uid [now]) uid now).2 = none := by
        rw [hf2eq]
        exact if_neg (by simpa using hm)
      rw [hst1, e2, e1]
      dsimp only
      rw [hfl1, hfl2]

/-- Witness for C9: a fresh sender under the default configuration gets
the same verdict twice (or the flood verdict, which the disjunction
allows). -/
theorem C9_idempotence_up_to_flood_witness :
    (analyze defaultConfig ((analyze defaultConfig initState 0 ("hello".toList) 4).1) 0
        ("hello".toList) 4).2
      = (analyze defaultConfig initState 0 ("hello".toList) 4).2
    ∨ (analyze defaultConfig ((analyze defaultConfig initState 0 ("hello".toList) 4).1) 0
        ("hello".toList) 4).2.violation_type = some "flood" :=
  C9_idempotence_up_to_flood defaultConfig initState 0 ("hello".toList) 4 rfl

theorem linkLoop_allowed_none :
    ∀ urls, (∀ u ∈ urls, allowed_domains.any (fun d => containsSub d (pyLowerStr u)) = true) →
      linkLoop urls = none := by
  intro urls
  induction urls with
  | nil => intro _; rfl
  | cons url rest ih =>
    intro hall
    have hu := hall url (by simp)
    simp only [linkLoop, hu]
    simp only [Bool.not_true, Bool.false_and, Bool.false_eq_true, if_false]
    exact ih (fun u hu2 => hall u (by simp [hu2]))

/-- C5: a message with exactly the configured cap of allow-listed URLs
passes the external-links check; one URL over the cap yields the 0.7
delete+warn verdict; and a single URL whose lowered form contains no
allow-listed domain and no `t.me` yields the 0.5 warn-only verdict. -/
theorem C5_links_cap_and_allowlist (cfg : Config) (text : List Char) :
    ((findUrls text).length = cfg.MAX_LINKS_PER_MESSAGE →
      (∀ u ∈ findUrls text, allowed_domains.any (fun d => containsSub d (pyLowerStr u)) = true) →
      checkExternalLinks cfg text = none)
    ∧ ((findUrls text).length = cfg.MAX_LINKS_PER_MESSAGE + 1 →
      checkExternalLinks cfg text
        = some { is_violation := true, violation_type := some "external_links",
                 confidence := 7/10,
                 reason := "Too many links ("
                   ++ toString (cfg.MAX_LINKS_PER_MESSAGE + 1) ++ ")",
                 should_delete := true, should_warn := true,
                 should_mute := false, should_ban := false })
    ∧ (∀ u, findUrls text = [u] → 1 ≤ cfg.MAX_LINKS_PER_MESSAGE →
        allowed_domains.any (fun d => containsSub d (pyLowerStr u)) = false →
        containsSub ("t.me".toList) (pyLowerStr u) = false →
        checkExternalLinks cfg text
          = some { is_violation := true, violation_type := some "external_links",
                   confidence := 1/2,
                   reason := "External link detected: " ++ String.mk (u.take 50) ++ "...",
                   should_delete := false, should_warn := true,
                   should_mute := false, should_ban := false }) := by
  refine ⟨?_, ?_, ?_⟩
  · intro hlen hall
    unfold checkExternalLinks
    dsimp only
    rw [if_neg (by rw [hlen]; exact lt_irrefl _)]
    exact linkLoop_allowed_none _ hall
  · intro hlen
    unfold checkExternalLinks
    dsimp only
    rw [hlen, if_pos (Nat.lt_succ_self _)]
  · intro u hu hcap hna htme
    have htme_raw : containsSub ("t.me".toList) u = false := by
      cases hx : containsSub ("t.me".toList) u with
      | false => rfl
      | true =>
        have hmap := containsSub_map pyLower _ _ hx
        rw [show ("t.me".toList).map pyLower = "t.me".toList from by decide] at hmap
        unfold pyLowerStr at htme
        rw [hmap] at htme
        exact htme
    unfold checkExternalLinks
    dsimp only
    rw [hu]
    rw [if_neg (by simpa using Nat.not_lt.mpr hcap)]
    simp only [linkLoop, hna, htme_raw]
    simp

/-- Witness for C5: two allowed URLs pass, three URLs trip the cap, one
foreign URL trips the allow-list. -/
theorem C5_links_cap_and_allowlist_witness :
    checkExternalLinks defaultConfig
        ("see https://brew.sh/install https://relay.app/dl ok".toList) = none
    ∧ checkExternalLinks defaultConfig
        ("https://a.com https://b.com https://c.com".toList)
        = some { is_violation := true, violation_type := some "external_links",
                 confidence := 7/10, reason := "Too many links (3)",
                 should_delete := true, should_warn := true,
                 should_mute := false, should_ban := false }
    ∧ checkExternalLinks defaultConfig ("go https://evil.com now".toList)
        = some { is_violation := true, violation_type := some "external_links",
                 confidence := 1/2,
                 reason := "External link detected: https://evil.com...",
                 should_delete := false, should_warn := true,
                 should_mute := false, should_ban := false } :=
  ⟨(C5_links_cap_and_allowlist defaultConfig
      ("see https://brew.sh/install https://relay.app/dl ok".toList)).1
      (by decide) (by decide),
   (C5_links_cap_and_allowlist defaultConfig
      ("https://a.com https://b.com https://c.com".toList)).2.1 (by decide),
   (C5_links_cap_and_allowlist defaultConfig
      ("go https://evil.com now".toList)).2.2 ("https://evil.com".toList)
      (by decide) (by decide) (by decide) (by decide)⟩

/-- C1 counterexample: on "you are such an idiot" no directed-insult
pattern matches (the 13 characters between "you" and "idiot" exceed the
{0,10} bound of `\byou.{0,10}(idiot|...)`), so the verdict is the
general-offensive one — confidence 0.6, warn only — refuting the
claimed confidence 0.9 with delete+warn. -/
theorem C1_counterexample :
    (analyze defaultConfig initState 0 ("you are such an idiot".toList) 0).2.confidence = 3/5
    ∧ (analyze defaultConfig initState 0
        ("you are such an idiot".toList) 0).2.should_delete = false
    ∧ ¬((analyze defaultConfig initState 0
          ("you are such an idiot".toList) 0).2.confidence = 9/10
        ∧ (analyze defaultConfig initState 0
            ("you are such an idiot".toList) 0).2.should_delete = true) := by
  decide

/-- C1 amended: for "you are such an idiot" with a fresh sender, the
directed patterns all fail, a general-offensive pattern matches, and
`analyze` returns a harassment verdict with confidence 0.6, should_warn
true and the other three action flags false. -/
theorem C1_amended_general_offensive :
    directed_patterns.any
        (fun p => rxSearch p (pyLowerStr ("you are such an idiot".toList))) = false
    ∧ offensive_patterns.any
        (fun p => rxSearch p (pyLowerStr ("you are such an idiot".toList))) = true
    ∧ (analyze defaultConfig initState 0 ("you are such an idiot".toList) 0).2
        = { is_violation := true, violation_type := some "harassment", confidence := 3/5,
            reason := "Potentially offensive language",
            should_delete := false, should_warn := true,
            should_mute := false, should_ban := false } := by
  decide

theorem runReports_grow (cfg : Config) (now : ℚ) :
    ∀ (pairs : List (List Char × List Char)) (st : FloodState) (k : Nat),
      st 0 = List.replicate k now →
      (∀ p ∈ pairs, checkSpam cfg p.1 (pyLowerStr p.1) = none) →
      (runReports cfg now st pairs) 0 = List.replicate (k + pairs.length) now := by
  intro pairs
  induction pairs with
  | nil => intro st k h _; simpa [runReports] using h
  | cons p rest ih =>
    intro st k h hall
    have hstep : (analyzeReport cfg st now p.1 p.2).1 0 = List.replicate (k + 1) now := by
      rw [analyzeReport_state,
          analyze_eq_of_spam_none cfg st now p.1 0 (hall p (by simp))]
      dsimp only
      rw [checkFlood_eq]
      dsimp only
      rw [h, filter_window_self now _ (fun x hx => by
            rw [List.eq_of_mem_replicate hx, sub_self]; norm_num)]
      simp [updState, List.replicate_succ']
    have hrest : ∀ q ∈ rest, checkSpam cfg q.1 (pyLowerStr q.1) = none :=
      fun q hq => hall q (List.mem_cons_of_mem _ hq)
    have hmain := ih (analyzeReport cfg st now p.1 p.2).1 (k + 1) hstep hrest
    simp only [runReports, List.length_cons]
    rw [hmain]
    congr 1
    omega

/-- C8 counterexample: after ten benign reports at one instant, a
report whose text fires the spam check does NOT get the flood verdict —
`analyze` runs spam first and its 0.95 verdict passes the report gate —
so the flood verdict does not come "regardless of the reported text"
(an otherwise identical report with empty text does flood). -/
theorem C8_counterexample :
    (analyzeReport defaultConfig
        (runReports defaultConfig 0 initState (List.replicate 10 ([], [])))
        0 ("bit.ly".toList) []).2.violation_type = some "spam"
    ∧ ¬(analyzeReport defaultConfig
        (runReports defaultConfig 0 initState (List.replicate 10 ([], [])))
        0 ("bit.ly".toList) []).2.violation_type = some "flood"
    ∧ (analyzeReport defaultConfig
        (runReports defaultConfig 0 initState (List.replicate 10 ([], [])))
        0 [] []).2.violation_type = some "flood" := by
  decide

/-- C8 amended: every `analyze_report` call runs the primary classifier
with sender id 0 and, whenever the spam check does not fire on the
reported text, appends the current time to sender 0's shared flood
history; consequently after MAX_MESSAGES_PER_MINUTE such calls within
the window, any further call whose reported text does not fire the spam
check returns the flood verdict (confidence 0.9, mute only), regardless
of the reason string. -/
theorem C8_report_flood_poisoning :
    (∀ (cfg : Config) (st : FloodState) (now : ℚ) (t r : List Char),
      checkSpam cfg t (pyLowerStr t) = none →
      (analyzeReport cfg st now t r).1 0
        = ((st 0).filter (fun x => decide (now - x < 60))) ++ [now])
    ∧ (∀ (now : ℚ) (pairs : List (List Char × List Char)) (t r : List Char),
        pairs.length = defaultConfig.MAX_MESSAGES_PER_MINUTE →
        (∀ p ∈ pairs, checkSpam defaultConfig p.1 (pyLowerStr p.1) = none) →
        checkSpam defaultConfig t (pyLowerStr t) = none →
        (analyzeReport defaultConfig (runReports defaultConfig now initState pairs)
            now t r).2.is_violation = true
        ∧ (analyzeReport defaultConfig (runReports defaultConfig now initState pairs)
            now t r).2.violation_type = some "flood"
        ∧ (analyzeReport defaultConfig (runReports defaultConfig now initState pairs)
            now t r).2.confidence = 9/10
        ∧ (analyzeReport defaultConfig (runReports defaultConfig now initState pairs)
            now t r).2.should_mute = true
        ∧ (analyzeReport defaultConfig (runReports defaultConfig now initState pairs)
            now t r).2.should_delete = false
        ∧ (analyzeReport defaultConfig (runReports defaultConfig now initState pairs)
            now t r).2.should_warn = false
        ∧ (analyzeReport defaultConfig (runReports defaultConfig now initState pairs)
            now t r).2.should_ban = false) := by
  constructor
  · intro cfg st now t r hspam
    rw [analyzeReport_state, analyze_eq_of_spam_none cfg st now t 0 hspam]
    dsimp only
    rw [checkFlood_eq]
    dsimp only
    simp [updState]
  · intro now pairs t r hlen hall hspam
    have hst : (runReports defaultConfig now initState pairs) 0
        = List.replicate 10 now := by
      have := runReports_grow defaultConfig now pairs initState 0 rfl hall
      rwa [hlen, Nat.zero_add] at this
    have hsome : (checkFlood defaultConfig
        (runReports defaultConfig now initState pairs) 0 now).2.isSome = true := by
      rw [checkFlood_eq]
      dsimp only
      rw [hst, filter_window_self now _ (fun x hx => by
            rw [List.eq_of_mem_replicate hx, sub_self]; norm_num)]
      rw [if_pos (by norm_num [defaultConfig])]
      rfl
    obtain ⟨R, hR⟩ := Option.isSome_iff_exists.mp hsome
    obtain ⟨ha, hb, hc, hd, he, hf, hg⟩ := checkFlood_shape hR
    have hv : (analyze defaultConfig (runReports defaultConfig now initState pairs)
        now t 0).2 = R := by
      rw [analyze_eq_of_spam_none _ _ _ _ _ hspam]
      dsimp only
      rw [hR]
    have hrep : (analyzeReport defaultConfig (runReports defaultConfig now initState pairs)
        now t r).2 = R := by
      unfold analyzeReport
      dsimp only
      rw [hv, if_pos (And.intro ha (by rw [hc]; norm_num))]
      exact hv
    rw [hrep]
    exact ⟨ha, hb, hc, hf, hd, he, hg⟩

/-- Witness for C8: ten empty reports at one instant followed by an
eleventh empty report produce the flood verdict. -/
theorem C8_report_flood_poisoning_witness :
    (analyzeReport defaultConfig
        (runReports defaultConfig 0 initState (List.replicate 10 ([], [])))
        0 [] []).2.is_violation = true
    ∧ (analyzeReport defaultConfig
        (runReports defaultConfig 0 initState (List.replicate 10 ([], [])))
        0 [] []).2.violation_type = some "flood"
    ∧ (analyzeReport defaultConfig
        (runReports defaultConfig 0 initState (List.replicate 10 ([], [])))
        0 [] []).2.confidence = 9/10
    ∧ (analyzeReport defaultConfig
        (runReports defaultConfig 0 initState (List.replicate 10 ([], [])))
        0 [] []).2.should_mute = true
    ∧ (analyzeReport defaultConfig
        (runReports defaultConfig 0 initState (List.replicate 10 ([], [])))
        0 [] []).2.should_delete = false
    ∧ (analyzeReport defaultConfig
        (runReports defaultConfig 0 initState (List.replicate 10 ([], [])))
        0 [] []).2.should_warn = false
    ∧ (analyzeReport defaultConfig
        (runReports defaultConfig 0 initState (List.replicate 10 ([], [])))
        0 [] []).2.should_ban = false :=
  C8_report_flood_poisoning.2 0 (List.replicate 10 ([], [])) [] []
    (by decide) (by decide) (by decide)

end ClaimTheorems

end RelayGuard
